import Mathlib

/-!
Verification of the Modkeeper client-side library state synchronizer.

The development shallowly embeds the data model and the operations of the
client (the Result envelope, the error translator, the result unwrappers,
the State Store atoms and the Action Layer merge functions, the optimistic
toggle controller of the mod card, and the dependencies normalization of the
mod detail view) and proves properties of the embedded operations.

JavaScript values are modelled as follows: machine strings are Lean String,
nullable fields are Option, arrays are List, a Record from string keys to
values is an association List in insertion order (the keys are pairwise
distinct, stated explicitly where a proof needs it), and a thrown value is
an Except error branch.
-/

namespace Modkeeper

/-! Data model.

Modelled from the spec: the generated backend bindings (the gen bindings
module with LibraryDTO, Mod, ModManifest, LibrarySwitch, Result, SError,
Dependencies) are generated code that is not part of the repository
snapshot; the shapes below follow the data-model section of the design
document and the concrete literals of the mock-data module. -/

/-- Modelled from the spec: a JavaScript Error object, reduced to the one
observable field the client code ever reads or constructs, its message. -/
structure ErrorObj where
  message : String
deriving DecidableEq

/-- Modelled from the spec: the backend error taxonomy SError.  A value is
either a bare string tag or a single-key structured object; the payload of
a structured variant is kept as a string.  The tag and key are arbitrary
strings so that the behavior of the translator and the unwrappers on
unrecognized variants is expressible. -/
inductive SErr where
  | bare (tag : String)
  | structured (key : String) (payload : String)
deriving DecidableEq

/-- Modelled from the spec: the Result envelope, a tagged union discriminated
by its status field, with exactly one of data and error populated. -/
inductive Result (T E : Type) where
  | ok (data : T)
  | err (error : E)
deriving DecidableEq

/-- Modelled from the spec: the author field of a manifest, a string or an
ordered list of strings. -/
inductive AuthorField where
  | single (name : String)
  | multiple (names : List String)
deriving DecidableEq

/-- Modelled from the spec: one dependency entry of the list shape. -/
structure Dep where
  id : String
  version : String
  optional : Bool
deriving DecidableEq

/-- Modelled from the spec: the two legal shapes of the manifest
dependencies: an id-to-version mapping or an ordered list of entries. -/
inductive Dependencies where
  | object (entries : List (String × String))
  | array (entries : List Dep)
deriving DecidableEq

/-- Modelled from the spec: a manifest link entry. -/
structure ModLink where
  url : String
  name : Option String
  link_type : Option String
deriving DecidableEq

/-- Modelled from the spec: the compatibility lists of a manifest.  The
source fields are named include and exclude; include is a reserved word
here, so both are suffixed with Tags. -/
structure Compatibility where
  includeTags : Option (List String)
  excludeTags : Option (List String)
deriving DecidableEq

/-- Modelled from the spec: descriptive metadata of a mod. -/
structure ModManifest where
  id : String
  name : String
  author : AuthorField
  version : String
  sptVersion : String
  description : Option String
  icon : Option String
  documentation : Option String
  compatibility : Option Compatibility
  dependencies : Option Dependencies
  effects : Option (List String)
  links : Option (List ModLink)
deriving DecidableEq

/-- Modelled from the spec: the mod type enumeration. -/
inductive ModType where
  | Client
  | Server
  | Both
  | Unknown
deriving DecidableEq

/-- Modelled from the spec: one mod of a library. -/
structure Mod where
  id : String
  name : String
  is_active : Bool
  mod_type : ModType
  manifest : Option ModManifest
  icon_data : Option String
deriving DecidableEq

/-- Modelled from the spec: one mod library; mods is a mapping from mod id
to Mod, kept as an association list in insertion order. -/
structure LibraryDTO where
  id : String
  name : String
  game_root : String
  repo_root : String
  spt_version : String
  mods : List (String × Mod)
  is_dirty : Bool
deriving DecidableEq

/-- Modelled from the spec: the root consistency object: the active library
and the ordered list of known libraries. -/
structure LibrarySwitch where
  active : Option LibraryDTO
  libraries : List LibraryDTO
deriving DecidableEq

/-! Error translator, from lib/error.ts.

The lingui msg and t macros perform locale lookup over a template literal;
the lookup is external internationalization machinery, embedded as the
identity on the template string, so every message below is the exact
literal of the source (typos included). -/

def msgGameOrServerRunning : String :=
  "The game or server is currently running. Please close it before performing this operation."

def msgProcessRunning : String :=
  "Mod related process is currently running. Please close it and try again."

def msgUnableToDetermineModId : String :=
  "Unable to determine the mod ID. Please check the mod files and try again."

def msgLink : String :=
  "Error happended while linking files to the game direcory. Please try again."

def msgDefaultBare : String :=
  "An error occurred. Please try again."

def msgUnexpected : String :=
  "An unexpected error occurred. Please try again."

def msgUnsupportedSPTVersion : String :=
  "Unsupported SPT version. Please check the supported version of this Mod Manager. If you think this is an error, please report the issue to the developer."

def msgParseError : String :=
  "A parsing error occurred. The file may be corrupted or in an invalid format."

def msgIoError : String :=
  "A file system error occurred. Please check your file permissions or if something is opened and try again."

def msgFileOrDirectoryNotFound : String :=
  "The requested file or directory was not found. Please check the path and try again."

def msgFileCollision : String :=
  "File conflicts detected. Some mods may have conflicting files."

def msgUnhandledCompression : String :=
  "The archive format is not supported. Please extract them to a folder manually."

def msgAsyncRuntimeError : String :=
  "An internal error occurred. Please try again."

def msgUpdateStatusError : String :=
  "Failed to update task status. Please try again."

def msgUnknownFallback : String :=
  "An unknown error occurred. Please try again."

/-- The error translator of lib/error.ts.  A bare string is dispatched by a
switch over its exact value: the seven recognized tags each return their
message (the default clause of the source switch precedes the last three
cases textually, but a switch matches cases wherever they stand, so the
default is taken only when no case matches); a structured variant is
dispatched by testing its unique key, in the textual order of the source,
with the unknown-error fallback last. -/
def translateError : SErr → String
  | .bare tag =>
      if tag = "GameOrServerRunning" then msgGameOrServerRunning
      else if tag = "ProcessRunning" then msgProcessRunning
      else if tag = "UnableToDetermineModId" then msgUnableToDetermineModId
      else if tag = "Link" then msgLink
      else if tag = "ContextUnprovided" then msgUnexpected
      else if tag = "NoActiveLibrary" then msgUnexpected
      else if tag = "Unexpected" then msgUnexpected
      else msgDefaultBare
  | .structured key _ =>
      if key = "UnsupportedSPTVersion" then msgUnsupportedSPTVersion
      else if key = "ParseError" then msgParseError
      else if key = "IOError" then msgIoError
      else if key = "FileOrDirectoryNotFound" then msgFileOrDirectoryNotFound
      else if key = "FileCollision" then msgFileCollision
      else if key = "UnhandledCompression" then msgUnhandledCompression
      else if key = "AsyncRuntimeError" then msgAsyncRuntimeError
      else if key = "UpdateStatusError" then msgUpdateStatusError
      else msgUnknownFallback

/-- The seven bare string tags the switch of the translator recognizes. -/
def recognizedBareTags : List String :=
  ["GameOrServerRunning", "ProcessRunning", "UnableToDetermineModId", "Link",
   "ContextUnprovided", "NoActiveLibrary", "Unexpected"]

/-- The eight structured keys the if chain of the translator recognizes. -/
def recognizedStructuredKeys : List String :=
  ["UnsupportedSPTVersion", "ParseError", "IOError", "FileOrDirectoryNotFound",
   "FileCollision", "UnhandledCompression", "AsyncRuntimeError", "UpdateStatusError"]

/-! Result unwrappers. -/

/-- The ur function of utils (result), in its no-handler form: an ok result
yields its data, an error result throws an ErrorObj whose message is the
translated error.  The thrown branch is the Except error branch. -/
def ur {T : Type} : Result T SErr → Except ErrorObj T
  | .err e => .error { message := translateError e }
  | .ok d => .ok d

/-- The ur function when a handler is supplied: the handler receives the ok
value or the error (never both) and its result is returned; nothing is
thrown on this path. -/
def urHandled {T R : Type} (handler : Option T → Option SErr → R) :
    Result T SErr → R
  | .err e => handler none (some e)
  | .ok d => handler (some d) none

/-- JavaScript property access of the message field on an SError value: a
bare string primitive has no message property; a single-key structured
object has one exactly when its key is the string message. -/
def errMessage : SErr → Option String
  | .bare _ => none
  | .structured key payload => if key = "message" then some payload else none

/-- The legacy unwrapResult of lib/fp-utils.ts: an ok result yields its
data; an error result throws an Error whose message is, of the error value,
message property when that is truthy (a non-empty string) and the literal
Unknown error otherwise.  The translator is not consulted. -/
def unwrapResult {T : Type} : Result T SErr → Except ErrorObj T
  | .ok d => .ok d
  | .err e =>
      .error { message :=
        match errMessage e with
        | some m => if m = "" then "Unknown error" else m
        | none => "Unknown error" }

/-! State Store, from the base atoms module (libraryAtom, librarySwitchAtom,
libraryLoadingAtom, libraryErrorAtom are plain writable atoms; the four cells
are gathered into one record). -/

/-- The four State Store cells.  The field names follow the atoms: library
for libraryAtom, librarySwitch for librarySwitchAtom, loading for
libraryLoadingAtom, error for libraryErrorAtom. -/
structure LibraryStore where
  library : Option LibraryDTO
  librarySwitch : Option LibrarySwitch
  loading : Bool
  error : Option ErrorObj
deriving DecidableEq

/-- The derived activeLibraryAtom: the active field of the switch, null when
the switch is absent. -/
def activeLibrary (s : LibraryStore) : Option LibraryDTO :=
  match s.librarySwitch with
  | some sw => sw.active
  | none => none

/-- The derived knownLibrariesAtom: the libraries of the switch, the empty
list when the switch is absent. -/
def knownLibraries (s : LibraryStore) : List LibraryDTO :=
  match s.librarySwitch with
  | some sw => sw.libraries
  | none => []

/-! Action Layer, from store/library-actions.ts. -/

/-- A value thrown inside an Action Layer operation: either an Error object
(the only kind the ur unwrapper throws) or any other JavaScript value. -/
inductive Thrown where
  | errObj (e : ErrorObj)
  | nonError
deriving DecidableEq

/-- The catch clause of withAsyncState: a thrown Error is kept, anything
else is wrapped into an Error with the message Operation failed. -/
def coerceThrown : Thrown → ErrorObj
  | .errObj e => e
  | .nonError => { message := "Operation failed" }

/-- Step 1 of every Action Layer call: set loading true and clear error. -/
def actionStart (s : LibraryStore) : LibraryStore :=
  { s with loading := true, error := none }

/-- The withAsyncState wrapper of store/library-actions.ts, applied to the
already-settled outcome of its wrapped operation: after the start step, an
ok outcome runs the state merge and returns the value, a thrown outcome
records the coerced error in the error cell and rethrows it; the finally
clause sets loading false on both paths. -/
def withAsyncState {R : Type} (updateState : LibraryStore → R → LibraryStore)
    (outcome : Except Thrown R) (s : LibraryStore) :
    LibraryStore × Except ErrorObj R :=
  let s1 := actionStart s
  match outcome with
  | .ok r => ({ updateState s1 r with loading := false }, .ok r)
  | .error t =>
      let e := coerceThrown t
      ({ s1 with error := some e, loading := false }, .error e)

/-- The outcome of an Action Layer operation built as ur of a backend
Result: an ok envelope yields its data, an err envelope is the translated
Error thrown by ur. -/
def opFromBackend {T : Type} (r : Result T SErr) : Except Thrown T :=
  match ur r with
  | .ok v => .ok v
  | .error e => .error (.errObj e)

/-- The updateLibraryState merge of store/library-actions.ts: write the
library cell, then, when the current switch exists and its active field is
truthy, rewrite the switch with the new library as active, the spread
keeping every other field (the libraries list) as it was. -/
def updateLibraryState (s : LibraryStore) (library : LibraryDTO) :
    LibraryStore :=
  let s1 := { s with library := some library }
  match s.librarySwitch with
  | some switchData =>
      match switchData.active with
      | some _ =>
          let newSwitch : LibrarySwitch := { switchData with active := some library }
          { s1 with librarySwitch := some newSwitch }
      | none => s1
  | none => s1

/-- The updateLibrarySwitchState merge of store/library-actions.ts: replace
the whole switch and set the library cell to its active field. -/
def updateLibrarySwitchState (s : LibraryStore) (switchData : LibrarySwitch) :
    LibraryStore :=
  { s with librarySwitch := some switchData, library := switchData.active }

/-- One Action Layer invocation together with the backend Result its wrapped
command settled with. -/
inductive ActionCall where
  | fetchLibrary (res : Result LibraryDTO SErr)
  | openLibrary (res : Result LibrarySwitch SErr)
  | createLibrary (res : Result LibrarySwitch SErr)
  | initAction (res : Result LibrarySwitch SErr)
  | addMods (res : Result LibraryDTO SErr)
  | removeMods (res : Result LibraryDTO SErr)
  | toggleMod (res : Result LibraryDTO SErr)
  | syncMods (res : Result LibraryDTO SErr)
  | renameLibrary (res : Result LibrarySwitch SErr)
  | closeLibrary (res : Result LibrarySwitch SErr)
  | removeLibrary (res : Result LibrarySwitch SErr)
deriving DecidableEq

/-- The merge of fetchLibraryAction: only the library cell is written. -/
def setLibraryOnly (s : LibraryStore) (library : LibraryDTO) : LibraryStore :=
  { s with library := some library }

/-- The state transition of one Action Layer call: each action atom of
store/library-actions.ts is withAsyncState over ur of its backend command,
with its merge function (updateLibrarySwitchState for the membership
commands, updateLibraryState for the four mod commands, the bare library
write for fetchLibrary). -/
def runAction : ActionCall → LibraryStore → LibraryStore
  | .fetchLibrary res, s => (withAsyncState setLibraryOnly (opFromBackend res) s).1
  | .openLibrary res, s =>
      (withAsyncState updateLibrarySwitchState (opFromBackend res) s).1
  | .createLibrary res, s =>
      (withAsyncState updateLibrarySwitchState (opFromBackend res) s).1
  | .initAction res, s =>
      (withAsyncState updateLibrarySwitchState (opFromBackend res) s).1
  | .addMods res, s => (withAsyncState updateLibraryState (opFromBackend res) s).1
  | .removeMods res, s =>
      (withAsyncState updateLibraryState (opFromBackend res) s).1
  | .toggleMod res, s =>
      (withAsyncState updateLibraryState (opFromBackend res) s).1
  | .syncMods res, s =>
      (withAsyncState updateLibraryState (opFromBackend res) s).1
  | .renameLibrary res, s =>
      (withAsyncState updateLibrarySwitchState (opFromBackend res) s).1
  | .closeLibrary res, s =>
      (withAsyncState updateLibrarySwitchState (opFromBackend res) s).1
  | .removeLibrary res, s =>
      (withAsyncState updateLibrarySwitchState (opFromBackend res) s).1

/-- The four mod-set commands whose actions merge through
updateLibraryState. -/
inductive ModCommand where
  | addMods
  | removeMods
  | toggleMod
  | syncMods
deriving DecidableEq

/-- The Action Layer call of a mod-set command with its backend Result. -/
def modActionCall : ModCommand → Result LibraryDTO SErr → ActionCall
  | .addMods, res => .addMods res
  | .removeMods, res => .removeMods res
  | .toggleMod, res => .toggleMod res
  | .syncMods, res => .syncMods res

/-- The error field of a Result envelope, none for an ok envelope. -/
def resError {T : Type} : Result T SErr → Option SErr
  | .ok _ => none
  | .err e => some e

/-- The SError of a call whose backend command settled with an err envelope,
none for an ok envelope. -/
def callError : ActionCall → Option SErr
  | .fetchLibrary res => resError res
  | .openLibrary res => resError res
  | .createLibrary res => resError res
  | .initAction res => resError res
  | .addMods res => resError res
  | .removeMods res => resError res
  | .toggleMod res => resError res
  | .syncMods res => resError res
  | .renameLibrary res => resError res
  | .closeLibrary res => resError res
  | .removeLibrary res => resError res

/-! Convenience atoms of the settings route store (ALibrarySwitch,
ALibraryActive, ALibraryList).  ALibrarySwitch is a plain writable atom with
no initial value, read here as an Option. -/

/-- The read function of ALibraryActive: the active field of the current
switch; an absent switch or a null active both come out as undefined (the
source coalesces the falsy null into void 0). -/
def getALibraryActive (current : Option LibrarySwitch) : Option LibraryDTO :=
  match current with
  | some sw => sw.active
  | none => none

/-- The write function of ALibraryActive: writing a LibraryDTO alone
synthesizes a full LibrarySwitch whose libraries field is the current
libraries list of the current switch (the empty list when absent) and
whose active field is the written value. -/
def setALibraryActive (current : Option LibrarySwitch) (value : LibraryDTO) :
    LibrarySwitch :=
  { libraries :=
      match current with
      | some sw => sw.libraries
      | none => []
    active := some value }

/-- The read function of ALibraryList: the libraries of the current switch,
the empty list when the switch is absent. -/
def getALibraryList (current : Option LibrarySwitch) : List LibraryDTO :=
  match current with
  | some sw => sw.libraries
  | none => []

/-! Optimistic Toggle Controller, from the ModCard component.

The component holds one local boolean cell, optimisticActive, initialized
from the is_active prop of the mod.  Three kinds of events can reach the cell:
the user toggle handler flips it and fires the backend call without
awaiting; the resynchronizing effect (dependent on the is_active prop) sets
it to the authoritative value whenever a State Store refresh changes that
prop; and the settling of the fired backend promise, whose result the
handler discards, so neither a fulfilled nor a rejected call touches the
cell. -/

/-- An event observable by the optimistic cell of the mod card. -/
inductive CardEvent where
  | userToggle
  | propSync (isActive : Bool)
  | backendSettled (failed : Bool)
deriving DecidableEq

/-- The transition of the optimistic cell under one event, read off the
ModCard component: handleToggle sets the cell to its negation, the effect
sets it to the refreshed is_active, and a settling backend call (success or
failure) leaves it as it is. -/
def cardStep : CardEvent → Bool → Bool
  | .userToggle, optimisticActive => !optimisticActive
  | .propSync isActive, _ => isActive
  | .backendSettled _, optimisticActive => optimisticActive

/-- The isActive argument handleToggle passes to the fired toggleMod call:
the negation of the current cell. -/
def toggleRequestState (optimisticActive : Bool) : Bool :=
  !optimisticActive

/-! Dependencies view, from the DependenciesTab of the mod detail route. -/

/-- The depList memo of DependenciesTab: the map shape is normalized into
one entry per key, in entry order, with the key as id, the mapped value as
version and optional false; the list shape is used as given. -/
def depList : Dependencies → List Dep
  | .object entries =>
      entries.map (fun kv => { id := kv.1, version := kv.2, optional := false })
  | .array entries => entries

/-! Concrete demonstration values, used in the counterexample and witness
statements below. -/

/-- A library as the backend returns it after a mod mutation. -/
def demoUpdated : LibraryDTO :=
  { id := "lib-1"
    name := "renamed"
    game_root := "/games/spt"
    repo_root := "/games/spt/.mod_keeper"
    spt_version := "3.9.0"
    mods := []
    is_dirty := false }

/-- The stale copy of the same library (same id, different content) that the
store already holds in its libraries list. -/
def demoStale : LibraryDTO :=
  { demoUpdated with name := "original", is_dirty := true }

/-- A store whose switch holds the stale copy both as active and as the one
entry of the libraries list. -/
def demoStore : LibraryStore :=
  { library := some demoStale
    librarySwitch := some { active := some demoStale, libraries := [demoStale] }
    loading := false
    error := none }

/-! Theorems. -/

/-- C2 counterexample: the translator does not send an unrecognized bare
string to the message that reads an unexpected error occurred, and it is not
variant-specific on the defined variants: the unrecognized fallback is the
distinct message that reads an error occurred, while the recognized variants
ContextUnprovided, NoActiveLibrary and Unexpected all share the
unexpected-error message. -/
theorem translateError_fallback_messages_differ :
    translateError (SErr.bare "ContextUnprovided")
        = translateError (SErr.bare "NoActiveLibrary")
    ∧ translateError (SErr.bare "SomeBrandNewVariant") = msgDefaultBare
    ∧ translateError (SErr.bare "Unexpected") = msgUnexpected
    ∧ msgDefaultBare ≠ msgUnexpected := by
  refine ⟨rfl, by decide, by decide, by decide⟩

/-- C2, amended: translateError is total over the error taxonomy and never
throws; every variant yields a non-empty string; an unrecognized bare-string
variant falls through to the generic an-error-occurred message (which is not
the unexpected-error message: that one belongs to the recognized variants
ContextUnprovided, NoActiveLibrary and Unexpected); an unrecognized
structured variant falls through to the generic unknown-error message. -/
theorem translateError_total_with_fallbacks (e : SErr) :
    translateError e ≠ ""
    ∧ (∀ tag : String, tag ∉ recognizedBareTags →
        translateError (SErr.bare tag) = msgDefaultBare)
    ∧ (∀ key payload : String, key ∉ recognizedStructuredKeys →
        translateError (SErr.structured key payload) = msgUnknownFallback) := by
  refine ⟨?_, ?_, ?_⟩
  · cases e with
    | bare tag =>
        simp only [translateError]
        split_ifs <;> decide
    | structured key payload =>
        simp only [translateError]
        split_ifs <;> decide
  · intro tag htag
    simp only [recognizedBareTags, List.mem_cons, List.not_mem_nil, or_false,
      not_or] at htag
    obtain ⟨h1, h2, h3, h4, h5, h6, h7⟩ := htag
    simp only [translateError, if_neg h1, if_neg h2, if_neg h3, if_neg h4,
      if_neg h5, if_neg h6, if_neg h7]
  · intro key payload hkey
    simp only [recognizedStructuredKeys, List.mem_cons, List.not_mem_nil,
      or_false, not_or] at hkey
    obtain ⟨h1, h2, h3, h4, h5, h6, h7, h8⟩ := hkey
    simp only [translateError, if_neg h1, if_neg h2, if_neg h3, if_neg h4,
      if_neg h5, if_neg h6, if_neg h7, if_neg h8]

/-- Witness for the amended C2 theorem at concrete variants. -/
theorem translateError_total_with_fallbacks_witness :
    translateError (SErr.bare "GameOrServerRunning") ≠ ""
    ∧ translateError (SErr.bare "SomeBrandNewVariant") = msgDefaultBare
    ∧ translateError (SErr.structured "SomeBrandNewVariant" "x")
        = msgUnknownFallback :=
  ⟨(translateError_total_with_fallbacks (SErr.bare "GameOrServerRunning")).1,
   (translateError_total_with_fallbacks (SErr.bare "GameOrServerRunning")).2.1
     "SomeBrandNewVariant" (by decide),
   (translateError_total_with_fallbacks (SErr.bare "GameOrServerRunning")).2.2
     "SomeBrandNewVariant" "x" (by decide)⟩

/-- C5: unwrapping an ok envelope through ur with no handler returns exactly
its data and throws nothing; unwrapping an err envelope with no handler
throws an Error whose message is the translator output for the error. -/
theorem ur_ok_identity_err_translated {T : Type} (t : T) (e : SErr) :
    ur (Result.ok t : Result T SErr) = Except.ok t
    ∧ ur (Result.err e : Result T SErr)
        = Except.error { message := translateError e } :=
  ⟨rfl, rfl⟩

/-- C9: the legacy unwrapResult throws the message property of the error value
when that is a non-empty string and the literal Unknown error otherwise; in
particular every bare-string variant yields exactly Unknown error, and the
thrown message on the fallback path is never an output of the translator,
which is not consulted. -/
theorem unwrapResult_message_fallback {T : Type} (e : SErr) :
    (∀ m : String, errMessage e = some m → m ≠ "" →
        unwrapResult (Result.err e : Result T SErr)
          = Except.error { message := m })
    ∧ (errMessage e = none →
        unwrapResult (Result.err e : Result T SErr)
          = Except.error { message := "Unknown error" })
    ∧ (errMessage e = some "" →
        unwrapResult (Result.err e : Result T SErr)
          = Except.error { message := "Unknown error" })
    ∧ (∀ tag : String,
        unwrapResult (Result.err (SErr.bare tag) : Result T SErr)
          = Except.error { message := "Unknown error" })
    ∧ translateError e ≠ "Unknown error" := by
  refine ⟨?_, ?_, ?_, ?_, ?_⟩
  · intro m hm hne
    simp only [unwrapResult, hm, if_neg hne]
  · intro hm
    simp only [unwrapResult, hm]
  · intro hm
    simp [unwrapResult, hm]
  · intro tag
    rfl
  · cases e with
    | bare tag =>
        simp only [translateError]
        split_ifs <;> decide
    | structured key payload =>
        simp only [translateError]
        split_ifs <;> decide

/-- Witness for the C9 theorem: a structured value carrying a non-empty
message property is rethrown verbatim, and a bare taxonomy tag falls back to
Unknown error. -/
theorem unwrapResult_message_fallback_witness :
    unwrapResult (Result.err (SErr.structured "message" "boom") : Result Nat SErr)
        = Except.error { message := "boom" }
    ∧ unwrapResult (Result.err (SErr.bare "Link") : Result Nat SErr)
        = Except.error { message := "Unknown error" } :=
  ⟨(unwrapResult_message_fallback (T := Nat) (SErr.structured "message" "boom")).1
     "boom" (by decide) (by decide),
   (unwrapResult_message_fallback (T := Nat) (SErr.bare "Link")).2.2.2.1 "Link"⟩

/-- Frame fact shared by the store proofs: the updateLibraryState merge
never touches the error cell. -/
theorem updateLibraryState_error (s : LibraryStore) (L : LibraryDTO) :
    (updateLibraryState s L).error = s.error := by
  cases hsw : s.librarySwitch with
  | none => simp [updateLibraryState, hsw]
  | some sw => cases ha : sw.active <;> simp [updateLibraryState, hsw, ha]

/-- C1 counterexample: a successful toggleMod that returns the renamed
library leaves the stale copy in the libraries list: the entry whose id
matches is not replaced, while the active cell is. -/
theorem modMerge_list_entry_not_replaced :
    demoStale.id = demoUpdated.id
    ∧ demoStale ≠ demoUpdated
    ∧ activeLibrary
        (runAction (modActionCall ModCommand.toggleMod (Result.ok demoUpdated))
          demoStore) = some demoUpdated
    ∧ knownLibraries
        (runAction (modActionCall ModCommand.toggleMod (Result.ok demoUpdated))
          demoStore) = [demoStale] := by
  refine ⟨rfl, by decide, rfl, rfl⟩

/-- C1, amended: after a successful addMods, removeMods, toggleMod or
syncMods returning L, when the prior switch exists and has a non-null
active, the library cell and the active cell of the switch become L while the
libraries list is left entirely unchanged (so every entry of libraries,
matching id included, keeps its prior value); loading ends false and error
ends null. -/
theorem modMerge_sets_active_keeps_list (k : ModCommand) (L : LibraryDTO)
    (s : LibraryStore) (sw : LibrarySwitch) (a : LibraryDTO)
    (hsw : s.librarySwitch = some sw) (ha : sw.active = some a) :
    runAction (modActionCall k (Result.ok L)) s =
      { library := some L
        librarySwitch := some { active := some L, libraries := sw.libraries }
        loading := false
        error := none }
    ∧ activeLibrary (runAction (modActionCall k (Result.ok L)) s) = some L
    ∧ knownLibraries (runAction (modActionCall k (Result.ok L)) s)
        = knownLibraries s := by
  cases s with
  | mk lib lsw ld er =>
      simp only at hsw
      subst hsw
      cases sw with
      | mk act libs =>
          simp only at ha
          subst ha
          cases k <;> exact ⟨rfl, rfl, rfl⟩

/-- Witness for the amended C1 theorem at the demonstration store. -/
theorem modMerge_sets_active_keeps_list_witness :
    runAction (modActionCall ModCommand.syncMods (Result.ok demoUpdated))
        demoStore =
      { library := some demoUpdated
        librarySwitch := some
          { active := some demoUpdated, libraries := [demoStale] }
        loading := false
        error := none } :=
  (modMerge_sets_active_keeps_list ModCommand.syncMods demoUpdated demoStore
    { active := some demoStale, libraries := [demoStale] } demoStale rfl rfl).1

/-- C8: when at merge time the switch is absent or its active field is
null, a successful mod-set command writes the returned library only to the
standalone library cell and leaves the librarySwitch cell unchanged. -/
theorem modMerge_without_active_leaves_switch (k : ModCommand) (L : LibraryDTO)
    (s : LibraryStore) (h : activeLibrary s = none) :
    (runAction (modActionCall k (Result.ok L)) s).library = some L
    ∧ (runAction (modActionCall k (Result.ok L)) s).librarySwitch
        = s.librarySwitch := by
  cases s with
  | mk lib lsw ld er =>
      cases lsw with
      | none => cases k <;> exact ⟨rfl, rfl⟩
      | some sw =>
          cases sw with
          | mk act libs =>
              cases act with
              | none => cases k <;> exact ⟨rfl, rfl⟩
              | some a => simp [activeLibrary] at h

/-- Witness for the C8 theorem: a store holding a switch with a null active
cell keeps that switch verbatim through a successful addMods. -/
theorem modMerge_without_active_leaves_switch_witness :
    (runAction (modActionCall ModCommand.addMods (Result.ok demoUpdated))
        { library := none
          librarySwitch := some { active := none, libraries := [demoStale] }
          loading := false
          error := none }).library = some demoUpdated
    ∧ (runAction (modActionCall ModCommand.addMods (Result.ok demoUpdated))
        { library := none
          librarySwitch := some { active := none, libraries := [demoStale] }
          loading := false
          error := none }).librarySwitch
        = some { active := none, libraries := [demoStale] } :=
  modMerge_without_active_leaves_switch ModCommand.addMods demoUpdated
    { library := none
      librarySwitch := some { active := none, libraries := [demoStale] }
      loading := false
      error := none } rfl

/-- C4: a failed Action Layer call leaves the librarySwitch cell (and the
library cell) exactly as they were, whatever the merge function of the call
is; only loading and error change, and in particular a backend err envelope
leaves the store equal to its prior value except loading false and the
translated error. -/
theorem failed_action_preserves_librarySwitch {R : Type}
    (f : LibraryStore → R → LibraryStore) (t : Thrown) (s : LibraryStore) :
    (withAsyncState f (Except.error t) s).1.librarySwitch = s.librarySwitch
    ∧ (withAsyncState f (Except.error t) s).1.library = s.library
    ∧ (withAsyncState f (Except.error t) s).1
        = { s with loading := false, error := some (coerceThrown t) }
    ∧ (∀ (c : ActionCall) (e : SErr), callError c = some e →
        runAction c s
          = { s with loading := false,
                     error := some { message := translateError e } }) := by
  refine ⟨rfl, rfl, rfl, ?_⟩
  intro c e h
  cases c <;>
    (rename_i res
     cases res with
     | ok d => exact absurd h (by simp [callError, resError])
     | err e2 =>
         simp only [callError, resError, Option.some.injEq] at h
         subst h
         rfl)

/-- Witness for the C4 theorem: a toggleMod call that settles with the
NoActiveLibrary error leaves the switch and library cells of the demonstration store
cells untouched and records the translated error. -/
theorem failed_action_preserves_librarySwitch_witness :
    (withAsyncState updateLibraryState
        (Except.error (Thrown.errObj { message := "boom" })) demoStore).1
      = { demoStore with loading := false,
                         error := some { message := "boom" } }
    ∧ runAction (ActionCall.toggleMod (Result.err (SErr.bare "NoActiveLibrary")))
        demoStore
      = { demoStore with loading := false,
                         error := some { message := msgUnexpected } } :=
  ⟨(failed_action_preserves_librarySwitch updateLibraryState
      (Thrown.errObj { message := "boom" }) demoStore).2.2.1,
   (failed_action_preserves_librarySwitch updateLibraryState
      (Thrown.errObj { message := "boom" }) demoStore).2.2.2
     (ActionCall.toggleMod (Result.err (SErr.bare "NoActiveLibrary")))
     (SErr.bare "NoActiveLibrary") rfl⟩

/-- C7: every Action Layer call starts by setting loading true and clearing
error, and settles with loading false; a call whose command succeeded ends
with a null error, and a call whose command failed ends with the translated
error of that failure recorded in the error cell (in this model only the
Action Layer writes the error cell, so the value persists until the start
of the next call clears it). -/
theorem action_loading_error_protocol (c : ActionCall) (s : LibraryStore) :
    (runAction c s).loading = false
    ∧ (actionStart s).loading = true
    ∧ (actionStart s).error = none
    ∧ (callError c = none → (runAction c s).error = none)
    ∧ (∀ e : SErr, callError c = some e →
        (runAction c s).error = some { message := translateError e }) := by
  refine ⟨?_, rfl, rfl, ?_, ?_⟩
  · cases c <;>
      (rename_i res
       cases res with
       | ok d => rfl
       | err e2 => rfl)
  · intro h
    cases c <;>
      (rename_i res
       cases res with
       | ok d =>
           simp only [runAction, withAsyncState, opFromBackend, ur]
           first
             | rfl
             | exact updateLibraryState_error (actionStart s) d
       | err e2 => exact absurd h (by simp [callError, resError]))
  · intro e h
    cases c <;>
      (rename_i res
       cases res with
       | ok d => exact absurd h (by simp [callError, resError])
       | err e2 =>
           simp only [callError, resError, Option.some.injEq] at h
           subst h
           rfl)

/-- Witness for the C7 theorem: the protocol at a failing syncMods call on
the demonstration store. -/
theorem action_loading_error_protocol_witness :
    (runAction (ActionCall.syncMods (Result.err (SErr.bare "GameOrServerRunning")))
        demoStore).loading = false
    ∧ (runAction (ActionCall.syncMods (Result.err (SErr.bare "GameOrServerRunning")))
        demoStore).error = some { message := msgGameOrServerRunning } :=
  ⟨(action_loading_error_protocol
      (ActionCall.syncMods (Result.err (SErr.bare "GameOrServerRunning")))
      demoStore).1,
   (action_loading_error_protocol
      (ActionCall.syncMods (Result.err (SErr.bare "GameOrServerRunning")))
      demoStore).2.2.2.2 (SErr.bare "GameOrServerRunning") rfl⟩

/-- C3 counterexample: writing the active cell alone with the renamed
library reuses the libraries list verbatim: the stale entry whose id matches
the written value stays in place, it is not replaced by the written
value. -/
theorem setActive_does_not_replace_entry :
    (setALibraryActive
        (some { active := some demoStale, libraries := [demoStale] })
        demoUpdated).libraries = [demoStale]
    ∧ demoStale.id = demoUpdated.id
    ∧ demoStale ≠ demoUpdated := by
  refine ⟨rfl, rfl, by decide⟩

/-- C3, amended: writing the active cell alone synthesizes a full
LibrarySwitch whose active field is the written library and whose libraries
field is the prior list reused unchanged (no entry is replaced or
inserted); the list is never dropped: it is empty only if the prior list
was empty or the prior switch absent. -/
theorem setActive_synthesizes_switch_reusing_list
    (current : Option LibrarySwitch) (value : LibraryDTO) :
    (setALibraryActive current value).active = some value
    ∧ (setALibraryActive current value).libraries = getALibraryList current
    ∧ ((setALibraryActive current value).libraries = [] →
        getALibraryList current = []) := by
  refine ⟨rfl, ?_, ?_⟩
  · cases current <;> rfl
  · intro h
    cases current with
    | none => rfl
    | some sw => simpa [setALibraryActive, getALibraryList] using h

/-- Witness for the amended C3 theorem at the demonstration switch. -/
theorem setActive_synthesizes_switch_reusing_list_witness :
    (setALibraryActive
        (some { active := some demoStale, libraries := [demoStale] })
        demoUpdated).active = some demoUpdated
    ∧ (setALibraryActive
        (some { active := some demoStale, libraries := [demoStale] })
        demoUpdated).libraries
      = getALibraryList
          (some { active := some demoStale, libraries := [demoStale] }) :=
  ⟨(setActive_synthesizes_switch_reusing_list
      (some { active := some demoStale, libraries := [demoStale] })
      demoUpdated).1,
   (setActive_synthesizes_switch_reusing_list
      (some { active := some demoStale, libraries := [demoStale] })
      demoUpdated).2.1⟩

/-- C6: the optimistic cell of a mod card starting from an inactive mod is
true immediately after the user toggle, stays true through the next
authoritative refresh that reports the mod active, is never changed by the
settling (successful or failed) of the fired backend call, and is rewritten
exactly to the refreshed is_active by every authoritative refresh. -/
theorem optimistic_toggle_transitions :
    cardStep CardEvent.userToggle false = true
    ∧ cardStep (CardEvent.propSync true) (cardStep CardEvent.userToggle false)
        = true
    ∧ (∀ (failed optimisticActive : Bool),
        cardStep (CardEvent.backendSettled failed) optimisticActive
          = optimisticActive)
    ∧ (∀ (isActive optimisticActive : Bool),
        cardStep (CardEvent.propSync isActive) optimisticActive = isActive) :=
  ⟨rfl, rfl, fun _ _ => rfl, fun _ _ => rfl⟩

/-- Helper for the dependencies view: filtering the normalized map shape by
an id that is not among the keys yields nothing. -/
theorem depList_filter_not_mem (m : List (String × String)) (k : String)
    (hk : k ∉ m.map Prod.fst) :
    (depList (Dependencies.object m)).filter (fun d => d.id == k) = [] := by
  induction m with
  | nil => rfl
  | cons kv rest ih =>
      simp only [List.map_cons, List.mem_cons, not_or] at hk
      obtain ⟨hne, hmem⟩ := hk
      simp only [depList, List.map_cons, List.filter_cons] at ih ⊢
      rw [if_neg (by simpa using fun h => hne h.symm)]
      exact ih hmem

/-- Helper for the dependencies view: filtering the normalized map shape by
a present key yields exactly its one entry, in normalized form. -/
theorem depList_filter_mem (m : List (String × String)) (k v : String)
    (hm : (m.map Prod.fst).Nodup) (hkv : (k, v) ∈ m) :
    (depList (Dependencies.object m)).filter (fun d => d.id == k)
      = [{ id := k, version := v, optional := false }] := by
  induction m with
  | nil => cases hkv
  | cons kv rest ih =>
      simp only [List.map_cons, List.nodup_cons] at hm
      obtain ⟨hknotin, hrest⟩ := hm
      rcases List.mem_cons.mp hkv with heq | hmem
      · rw [← heq] at hknotin ⊢
        simp only [depList, List.map_cons, List.filter_cons]
        rw [if_pos (by simp)]
        have htail := depList_filter_not_mem rest k hknotin
        simp only [depList] at htail
        rw [htail]
      · have hkmem : k ∈ rest.map Prod.fst :=
          List.mem_map.mpr ⟨(k, v), hmem, rfl⟩
        have hne : kv.1 ≠ k := fun h => hknotin (h ▸ hkmem)
        simp only [depList, List.map_cons, List.filter_cons] at ih ⊢
        rw [if_neg (by simpa using hne)]
        exact ih hrest hmem

/-- C10: the dependencies view normalizes the map shape into exactly one
entry per key (the key as id, the mapped value as version, optional false
throughout, one entry per mapping pair), and uses the list shape unchanged
in its given order. -/
theorem depList_normalization (m : List (String × String))
    (hm : (m.map Prod.fst).Nodup) (l : List Dep) :
    (depList (Dependencies.object m)).length = m.length
    ∧ (∀ d, d ∈ depList (Dependencies.object m) → d.optional = false)
    ∧ (∀ k v, (k, v) ∈ m →
        (depList (Dependencies.object m)).filter (fun d => d.id == k)
          = [{ id := k, version := v, optional := false }])
    ∧ depList (Dependencies.array l) = l := by
  refine ⟨by simp [depList], ?_, ?_, rfl⟩
  · intro d hd
    simp only [depList, List.mem_map] at hd
    obtain ⟨kv, _, hkv⟩ := hd
    rw [← hkv]
  · intro k v hkv
    exact depList_filter_mem m k v hm hkv

/-- Witness for the C10 theorem on a two-key mapping. -/
theorem depList_normalization_witness :
    (depList (Dependencies.object [("core-lib", "^1.0.0"), ("ui-kit", "~2.5.0")])).length = 2
    ∧ (depList (Dependencies.object [("core-lib", "^1.0.0"), ("ui-kit", "~2.5.0")])).filter
        (fun d => d.id == "ui-kit")
      = [{ id := "ui-kit", version := "~2.5.0", optional := false }] :=
  ⟨(depList_normalization [("core-lib", "^1.0.0"), ("ui-kit", "~2.5.0")]
      (by decide) []).1,
   (depList_normalization [("core-lib", "^1.0.0"), ("ui-kit", "~2.5.0")]
      (by decide) []).2.2.1 "ui-kit" "~2.5.0" (by decide)⟩

end Modkeeper
